import Mathlib

/-!
Verification development for the ollama-tools repository (src/ol.py,
src/db_utils.py, src/tools.py, src/search_utils.py).

The Python code is shallowly embedded: strings are `List Char` (Python
strings are sequences of code points), Python dicts with string keys are
association lists in insertion order, numbers are exact rationals, and
numpy float division is modelled by `NpFloat` (which represents the
special values nan, inf and negative inf produced by division by zero).  External
collaborators (the embedding HTTP endpoint, the chromadb store, the
`json` module, Rich console rendering, the concrete tool side effects)
are oracle functions bundled into environment structures; everything
that the code of the repository itself computes is embedded as executable Lean
definitions translated line by line from the source.
-/

/-- Python exception values, as far as the embedded code distinguishes
them: `ol.py` dispatches on `ValueError` (and its message) versus any
other `Exception`, so we keep the constructor and the message. -/
inductive PyExc : Type
| valueError (msg : String)
| typeError (msg : String)
| keyError (msg : String)
| nameError (msg : String)
deriving DecidableEq

/-- Result of running a piece of Python code: either a normal value or
an escaping exception (`try`-free code that cannot raise simply returns
the value). -/
inductive PyResult (α : Type) : Type
| ok (a : α)
| exn (e : PyExc)

/-- JSON-like Python values: what `json.loads` produces and what the
tool functions return.  Objects are association lists in insertion
order (Python dict semantics for string keys). -/
inductive JVal : Type
| null
| bool (b : Bool)
| num (q : ℚ)
| str (s : String)
| arr (xs : List JVal)
| obj (fields : List (String × JVal))

/-- Python `d[k]` / `d.get(k)` on a dict modelled as an association
list; returns `none` when the key is missing or the value is not a
dict (the two cases raise KeyError resp. TypeError in Python, and every
caller embedded here treats both uniformly). -/
def jGet : JVal → String → Option JVal
  | .obj fields, k => fields.lookup k
  | _, _ => none

/-- Python truthiness of a JSON-like value (`if result["results"]:` and
`metadata.get("id") or ...` test truthiness, not presence). -/
def jTruthy : JVal → Bool
  | .null => false
  | .bool b => b
  | .num q => decide (q ≠ 0)
  | .str s => decide (s ≠ "")
  | .arr xs => !xs.isEmpty
  | .obj fs => !fs.isEmpty

/-- A numpy double as far as the embedded arithmetic observes it: a
finite value (modelled exactly as a rational) or one of the special
values produced by dividing by zero.  numpy emits a RuntimeWarning on
division by zero but raises no exception. -/
inductive NpFloat : Type
| val (q : ℚ)
| nan
| inf
| ninf
deriving DecidableEq

/-- numpy float division: `0.0/0.0 = nan`, `x/0.0 = ±inf` for nonzero
`x`, ordinary quotient otherwise (finite arithmetic modelled exactly). -/
def npDiv (n d : ℚ) : NpFloat :=
  if d = 0 then (if n = 0 then .nan else if 0 < n then .inf else .ninf)
  else .val (n / d)

/-- Embedding of `np.dot` on two equal-length 1-D arrays (the caller checks lengths;
see `cosine_similarity`). -/
def np_dot (a b : List ℚ) : ℚ :=
  (List.zipWith (· * ·) a b).sum

/-- db_utils.py lines 83-84:
`return np.dot(a, b) / (np.linalg.norm(a) * np.linalg.norm(b))`.
`np.linalg.norm v` is `sqrt (np_dot v v)`; the floating-point square
root is an oracle parameter (IEEE sqrt is exact at 0, which is the only
value any theorem below constrains).  `np.dot` raises ValueError on
mismatched shapes, modelled by `none`.  There is no zero-denominator
check in the source: a zero denominator flows into `npDiv`. -/
def cosine_similarity (sqrt : ℚ → ℚ) (a b : List ℚ) : Option NpFloat :=
  if a.length = b.length then
    some (npDiv (np_dot a b) (sqrt (np_dot a a) * sqrt (np_dot b b)))
  else none

/-- First index `≥ base` at which `needle` occurs in `hay`, scanning
character by character (the `base` accumulator makes the returned index
absolute). -/
def findSub (needle : List Char) : List Char → Nat → Option Nat
  | [], base => if needle.isPrefixOf ([] : List Char) then some base else none
  | h :: t, base =>
    if needle.isPrefixOf (h :: t) then some base else findSub needle t (base + 1)

/-- Python `s.index(sub, start)` / `sub in s`: first occurrence of
`sub` at an index `≥ start`; `none` models the ValueError
"substring not found". -/
def strIndex (s sub : List Char) (start : Nat) : Option Nat :=
  (findSub sub (s.drop start) 0).map (· + start)

/-- Python `str.strip()`: remove leading and trailing whitespace. -/
def pyStrip (l : List Char) : List Char :=
  ((l.dropWhile Char.isWhitespace).reverse.dropWhile Char.isWhitespace).reverse

/-- Stable insertion into a descending-sorted list: the new element is
placed after every element whose key is `≥` its own, which is exactly
where the stable Python `list.sort(key=..., reverse=True)` keeps a
later-occurring element. -/
def pyInsertDesc {α : Type} (ge : α → α → Bool) (x : α) : List α → List α
  | [] => [x]
  | y :: ys => if ge y x then y :: pyInsertDesc ge x ys else x :: y :: ys

/-- Python `list.sort(key=..., reverse=True)`: a stable descending
sort.  Python uses timsort; any stable sort computes the same list when
the keys are totally comparable, so we embed it as stable insertion
sort. -/
def pySortDesc {α : Type} (ge : α → α → Bool) (l : List α) : List α :=
  l.foldl (fun acc x => pyInsertDesc ge x acc) []

/-- Events observable while the tool-call protocol runs: one event per
execution of a tool callable body (`AITools.<name>(**kwargs)` for the
sync static methods and for inherited class attributes; for the async
`search` method the body runs when the coroutine is awaited). -/
inductive ToolEvent : Type
| invoked (name : String) (kwargs : List (String × JVal))

/-- Outcome of calling one Python callable: a returned value or a
raised exception. -/
inductive CallOutcome : Type
| ret (v : JVal)
| raised (e : PyExc)

/-- Names of the 13 entries of `AVAILABLE_TOOLS` (tools.py lines
188-335), which coincide with the names of the static methods defined
on class `AITools` (tools.py lines 34-185). -/
def availableToolNames : List String :=
  ["create_folder", "create_file", "write_to_file", "read_file",
   "list_files", "delete_file", "search", "upload_file", "get_weather",
   "get_news", "translate_text", "summarize_text", "analyze_sentiment"]

/-- tools.py lines 337-341: linear scan of `AVAILABLE_TOOLS` by name
(only the name matters to the embedding; `None` on a miss). -/
def get_tool_by_name (name : String) : Option String :=
  availableToolNames.find? (fun t => t == name)

/-- The synchronous static methods of `AITools`: every method except
the async `search` (tools.py line 105). -/
def syncMethodNames : List String :=
  ["create_folder", "create_file", "write_to_file", "read_file",
   "list_files", "delete_file", "upload_file", "get_weather",
   "get_news", "translate_text", "summarize_text", "analyze_sentiment"]

/-- External-collaborator surface of the tool layer.  `jsonLoads`
models `json.loads` on the payload text (`none` is a
json.JSONDecodeError, which in Python is a subclass of ValueError whose
message never contains the text "substring not found").  `syncTool`
gives the behaviour (return value or raised exception) of each
synchronous `AITools` method body, whose side effects are filesystem
I/O; `searchRun` gives the behaviour of awaiting the coroutine of the
async `AITools.search` (i.e. of `perform_search`).  `inherited` models
the attributes `getattr(AITools, name)` finds beyond the statically
defined methods: class machinery inherited from `object` and the
metaclass `type` (for example `getattr(AITools, "mro")` is the bound
metaclass method `type.mro`, and calling it returns the method
resolution order list); `none` means `getattr` returns the `None`
default.  `dumps`, `pyStr` and `renderTable` are `json.dumps(result,
indent=2)`, Python `str()`, and the Rich-console capture of
`format_search_results` (ol.py lines 178-184). -/
structure ToolEnv : Type where
  jsonLoads : List Char → Option JVal
  syncTool : String → List (String × JVal) → CallOutcome
  searchRun : List (String × JVal) → CallOutcome
  inherited : String → Option (List (String × JVal) → CallOutcome)
  dumps : JVal → String
  pyStr : JVal → String
  renderTable : JVal → String

/-- The message text carried by an exception value (`str(e)`). -/
def excMsg : PyExc → String
  | .valueError m => m
  | .typeError m => m
  | .keyError m => m
  | .nameError m => m

/-- The dict `{"success": False, "error": msg}` (tools.py lines 346 and
353; the embedded not-found message drops the quote characters around
the name, which no claim observes). -/
def failureDict (msg : String) : JVal :=
  .obj [("success", .bool false), ("error", .str msg)]

/-- What `execute_tool` hands back to the `await` in ol.py line 169:
for the async `search`, `tool(**kwargs)` merely creates a coroutine,
which `execute_tool` returns un-awaited; for every other resolved
attribute the call runs to completion and a plain (non-awaitable)
value is returned. -/
inductive ExecRet : Type
| plain (v : JVal)
| coro (o : CallOutcome)

/-- tools.py lines 343-353.  `tool = getattr(AITools, tool_name, None)`
resolves the static methods and the inherited class-machinery
attributes; an unresolved name yields the synthesized failure dict
without calling anything.  A resolved callable is called; an exception
it raises is caught and converted to a failure dict (the coroutine
creation for `search` cannot raise, so its outcome is deferred to the
await).  The returned value of the call is passed through as is, dict
or not. -/
def execute_tool (env : ToolEnv) (name : String) (kwargs : List (String × JVal)) :
    ExecRet × List ToolEvent :=
  if name = "search" then
    (.coro (env.searchRun kwargs), [])
  else if syncMethodNames.contains name then
    match env.syncTool name kwargs with
    | .ret v => (.plain v, [.invoked name kwargs])
    | .raised e => (.plain (failureDict (excMsg e)), [.invoked name kwargs])
  else
    match env.inherited name with
    | some call =>
      match call kwargs with
      | .ret v => (.plain v, [.invoked name kwargs])
      | .raised e => (.plain (failureDict (excMsg e)), [.invoked name kwargs])
    | none => (.plain (failureDict ("Tool " ++ name ++ " not found")), [])

/-- ol.py line 169: `result = await execute_tool(tool_name, **arguments)`.
`execute_tool` is a plain `def`, so for every synchronous tool it
returns a dict, and `await` on a non-awaitable raises TypeError.  Only
for `search` does `execute_tool` return a coroutine; awaiting it runs
`perform_search`, whose result (or escaping exception) is the await
outcome. -/
def callAndAwait (env : ToolEnv) (name : String) (kwargs : List (String × JVal)) :
    (PyResult JVal) × List ToolEvent :=
  match execute_tool env name kwargs with
  | (.plain _, evs) => (.exn (.typeError "object dict cannot be used in await expression"), evs)
  | (.coro (.ret v), evs) => (.ok v, evs ++ [.invoked "search" kwargs])
  | (.coro (.raised e), evs) => (.exn e, evs)

/-- ol.py lines 187-190: the numbered "Full URLs" lines under the
captured search-result table; `result_item.get("url", "N/A")`. -/
def urlLinks (env : ToolEnv) (i : Nat) : List JVal → String
  | [] => ""
  | x :: t =>
    toString i ++ ". " ++ (match jGet x "url" with
                           | some u => env.pyStr u
                           | none => "N/A") ++ "\n" ++ urlLinks env (i + 1) t

/-- ol.py lines 171-200: build the `tool_response` text from the result
dict.  Missing-key accesses (`result["success"]`, `result["files"]`,
`result["results"]`) raise (KeyError, or TypeError when `result` is not
a dict — both land in the generic `except Exception`, which the caller
treats identically, so the embedded exception constructor is
representative).  `"\n".join(result["files"])` raises TypeError unless
every element is a string. -/
def renderToolResponse (env : ToolEnv) (name : String) (result : JVal) :
    PyResult String :=
  match jGet result "success" with
  | none => .exn (.keyError "success")
  | some sv =>
    if jTruthy sv then
      if name = "list_files" then
        match jGet result "files" with
        | some (.arr xs) =>
          match (xs.mapM (fun x => match x with | .str s => some s | _ => none)) with
          | some files =>
            .ok ("Here are the files and directories in the specified path:\n\n"
                  ++ String.intercalate "\n" files)
          | none => .exn (.typeError "sequence item expected str instance")
        | some _ => .exn (.typeError "object is not iterable")
        | none => .exn (.keyError "files")
      else if name = "search" then
        match jGet result "results" with
        | some rv =>
          if jTruthy rv then
            .ok ("```\n" ++ env.renderTable rv ++ "\n"
                  ++ "Full URLs:\n"
                  ++ (match rv with | .arr items => urlLinks env 1 items | _ => "")
                  ++ "\n```")
          else .ok "No search results found."
        | none => .exn (.keyError "results")
      else
        .ok ("Tool result: " ++ env.dumps result)
    else
      .ok ("Error executing " ++ name ++ ": "
            ++ (match jGet result "error" with
                | some e => env.pyStr e
                | none => "Unknown error"))

/-- The start marker `<tool_call>` (11 characters, matching the
hard-coded offset 11 in ol.py line 157). -/
def tcOpen : List Char := "<tool_call>".toList

/-- The end marker `</tool_call>` (12 characters, matching the
hard-coded offset 12 in ol.py lines 203 and 208). -/
def tcClose : List Char := "</tool_call>".toList

/-- Python `sub in s` for exception-message tests. -/
def containsSub (s pat : String) : Bool :=
  (strIndex s.toList pat.toList 0).isSome

/-- Result of one pass through the `while` body of
`process_tool_calls`: the loop condition failed (`finished`), an
explicit `break` ran (`stopped`), the body rewrote `content` and the
loop repeats (`continueWith`), or an exception escaped the function
(`raised`). -/
inductive StepRes : Type
| finished (c : List Char)
| stopped (c : List Char)
| continueWith (c : List Char)
| raised (e : PyExc)

/-- ol.py lines 205-214: the exception handlers of the loop body.  A
ValueError whose message contains "substring not found" removes the
tag span and continues (the source comment intends this for a missing
end marker, but that search happens on line 156, outside the `try`, so
in the embedded body the branch is dead); every other exception prints
a warning and breaks. -/
def dispatchExc (content : List Char) (s e : Nat) : PyExc → StepRes
  | .valueError msg =>
    if containsSub msg "substring not found" then
      .continueWith (content.take s ++ content.drop (e + 12))
    else .stopped content
  | _ => .stopped content

/-- One pass of the loop body of `process_tool_calls` (ol.py lines
154-214).  Lines 155-156 run outside the `try`: a missing end marker
raises ValueError out of the function.  Inside the `try`: JSON
decoding failure is a ValueError without "substring not found" in its
message, so it breaks; a payload without a string `name` and dict
`arguments` raises (KeyError / TypeError) and breaks; otherwise the
tool is executed and awaited and the tag span is replaced by the
`<tool_response>` block. -/
def toolCallStep (env : ToolEnv) (content : List Char) : StepRes × List ToolEvent :=
  match strIndex content tcOpen 0 with
  | none => (.finished content, [])
  | some s =>
    match strIndex content tcClose s with
    | none => (.raised (.valueError "substring not found"), [])
    | some e =>
      let payload := pyStrip ((content.drop (s + 11)).take (e - (s + 11)))
      match env.jsonLoads payload with
      | none => (.stopped content, [])
      | some td =>
        match jGet td "name", jGet td "arguments" with
        | some (.str nm), some (.obj args) =>
          match callAndAwait env nm args with
          | (.exn ex, evs) => (dispatchExc content s e ex, evs)
          | (.ok result, evs) =>
            match renderToolResponse env nm result with
            | .exn ex => (dispatchExc content s e ex, evs)
            | .ok resp =>
              (.continueWith (content.take s
                  ++ "<tool_response>\n".toList ++ resp.toList
                  ++ "\n</tool_response>".toList ++ content.drop (e + 12)), evs)
        | _, _ => (.stopped content, [])

/-- ol.py lines 153-216: the `while "<tool_call>" in content` loop,
indexed by fuel because the textual rewriting gives no structural
termination measure (a tool response containing a new tag is rescanned).
`none` means the fuel ran out with the loop still running; every
theorem below supplies sufficient fuel. -/
def process_tool_calls (env : ToolEnv) : Nat → List Char →
    Option ((PyResult (List Char)) × List ToolEvent)
  | 0, _ => none
  | fuel + 1, content =>
    match toolCallStep env content with
    | (.finished c, evs) => some (.ok c, evs)
    | (.stopped c, evs) => some (.ok c, evs)
    | (.raised ex, evs) => some (.exn ex, evs)
    | (.continueWith c, evs) =>
      match process_tool_calls env fuel c with
      | none => none
      | some (r, evs2) => some (r, evs ++ evs2)

/-- One row of a chromadb `query` result after zipping
`documents[0]`, `embeddings[0]`, `metadatas[0]` (db_utils.py line 112;
the store returns the three lists with equal lengths).  `meta` is
`None` or a metadata dict. -/
structure QueryRow : Type where
  doc : String
  emb : List ℚ
  meta : Option (List (String × JVal))

/-- Outcome of `vector_db.query` (db_utils.py lines 98-102): an
exception, a result that fails the
`isinstance(results, dict) and "documents" in results and results["documents"]`
guard on line 107, or well-formed rows. -/
inductive QueryRes : Type
| raised (e : PyExc)
| noDocs
| rows (items : List QueryRow)

/-- Store operations observable from db_utils:
`ensure_collection_exists` (idempotent open-or-create, swallows its own
errors), `vector_db.query`, and `vector_db.add` (whose key, embedding,
serialized document, metadata id and timestamp are recorded). -/
inductive DbEvent : Type
| ensureCollection
| query (pe : List ℚ) (n : Nat)
| add (key : String) (emb : List ℚ) (doc : List (String × String))
      (metaId : String) (ts : ℚ)

/-- External-collaborator surface of db_utils.py.  `getEmbedding` is
`get_embedding` (db_utils.py lines 43-56), which catches
requests.RequestException and returns `None`, and also returns the
`embedding` field of the response which may itself be absent (`None`);
both absences are one `none` here.  `queryDb` is the chromadb query
(its rows are returned as plain lists, so the eager
`json.dumps(results, indent=2)` in the debug f-string on line 104
serializes without error).  `jsonLoads` parses a stored document.
`sqrt` is the floating-point square root used by `np.linalg.norm`
(exact at 0).  `uuid` is the fresh `str(uuid.uuid4())` and `now` is
`time.time()` of the current call. -/
structure DbEnv : Type where
  nContexts : Nat
  getEmbedding : String → Option (List ℚ)
  queryDb : List ℚ → Nat → QueryRes
  jsonLoads : String → Option JVal
  sqrt : ℚ → ℚ
  uuid : String
  now : ℚ

/-- A retrieved context: the parsed document fields plus the `id` and
`similarity` entries that db_utils.py lines 117-123 write into the same
dict (they shadow any equally named document field, so they are kept as
separate components). -/
structure Ctx : Type where
  fields : List (String × JVal)
  ctxId : JVal
  similarity : NpFloat

/-- db_utils.py lines 117-121:
`metadata.get("id") or context.get("id", "Unknown")` when metadata is
present (Python `or` falls through on a falsy id), and
`context.get("id", "Unknown")` otherwise. -/
def ctxIdOf (fields : List (String × JVal)) : Option (List (String × JVal)) → JVal
  | some m =>
    match m.lookup "id" with
    | some v => if jTruthy v then v else (fields.lookup "id").getD (.str "Unknown")
    | none => (fields.lookup "id").getD (.str "Unknown")
  | none => (fields.lookup "id").getD (.str "Unknown")

/-- db_utils.py lines 112-126: the per-candidate loop.  A document that
fails to parse is skipped (the inner `except json.JSONDecodeError`);
`cosine_similarity` on mismatched shapes raises out of the loop; a
parsed document that is not a dict makes `context["id"] = ...` raise
TypeError out of the loop (the cosine is computed first, matching the
statement order). -/
def buildContexts (env : DbEnv) (pe : List ℚ) : List QueryRow → PyResult (List Ctx)
  | [] => .ok []
  | row :: rest =>
    match env.jsonLoads row.doc with
    | none => buildContexts env pe rest
    | some v =>
      match cosine_similarity env.sqrt pe row.emb with
      | none => .exn (.valueError "shapes not aligned")
      | some sim =>
        match v with
        | .obj fields =>
          match buildContexts env pe rest with
          | .ok cs => .ok (⟨fields, ctxIdOf fields row.meta, sim⟩ :: cs)
          | .exn e => .exn e
        | _ => .exn (.typeError "does not support item assignment")

/-- Descending comparison on the similarity keys used by
`contexts.sort(key=lambda x: x["similarity"], reverse=True)`
(db_utils.py line 129): IEEE semantics, every comparison involving nan
is false. -/
def ctxGe (a b : Ctx) : Bool :=
  match a.similarity, b.similarity with
  | .nan, _ => false
  | _, .nan => false
  | .inf, _ => true
  | _, .inf => false
  | _, .ninf => true
  | .ninf, _ => false
  | .val p, .val q => decide (q ≤ p)

/-- db_utils.py lines 133-137: the final debug loop evaluates its
f-string arguments eagerly even with DEBUG_MODE off, so
`context["prompt"]` must exist and `context["response"][:50]` must be
sliceable (a string or a list), else the access raises out of the
`try`. -/
def debugPrintable (c : Ctx) : Bool :=
  (c.fields.lookup "prompt").isSome &&
  (match c.fields.lookup "response" with
   | some (.str _) => true
   | some (.arr _) => true
   | _ => false)

/-- The `except Exception` handler of `retrieve_context` (db_utils.py
lines 139-142) evaluates
`debug_print(f"Exception details: {traceback.format_exc()}")`, but
db_utils.py never imports `traceback`: the f-string argument is
evaluated before the call regardless of DEBUG_MODE, so the handler
itself raises NameError (real message:
name traceback is not defined, quotes dropped) and `return []` on line
142 is never reached. -/
def tracebackNameError : PyExc :=
  .nameError "name traceback is not defined"

/-- db_utils.py lines 86-142: `retrieve_context`.  Returns the Python
outcome together with the trace of store operations.  On a `None`
prompt embedding it returns `[]` before touching the store (line 95);
any exception inside the `try` is converted by the broken handler into
an escaping NameError (see `tracebackNameError`). -/
def retrieve_context (env : DbEnv) (prompt : String) :
    (PyResult (List Ctx)) × List DbEvent :=
  match env.getEmbedding prompt with
  | none => (.ok [], [.ensureCollection])
  | some pe =>
    let evs := [DbEvent.ensureCollection, DbEvent.query pe env.nContexts]
    match env.queryDb pe env.nContexts with
    | .raised _ => (.exn tracebackNameError, evs)
    | .noDocs => (.ok [], evs)
    | .rows items =>
      match buildContexts env pe items with
      | .exn _ => (.exn tracebackNameError, evs)
      | .ok cs =>
        let taken := (pySortDesc ctxGe cs).take env.nContexts
        if taken.all debugPrintable then (.ok taken, evs)
        else (.exn tracebackNameError, evs)

/-- Python dict assignment `d[k] = v` on an association list: replace
in place if the key exists, else append. -/
def pySet : List (String × String) → String → String → List (String × String)
  | [], k, v => [(k, v)]
  | (k0, v0) :: t, k, v =>
    if k0 = k then (k, v) :: t else (k0, v0) :: pySet t k v

/-- db_utils.py lines 58-81: `add_to_vector_db`.  The embedding is
taken over `conversation["prompt"] + " " + conversation["response"]`
(a missing key raises KeyError, caught by the blanket `except` on line
80, leaving the dict unmodified); a `None` embedding returns without
mutation or store write; otherwise the fresh uuid is written into the
dict of the caller as `id`, and `vector_db.add` is called with that uuid as
key, the serialized mutated dict as document, and `{"id": uuid,
"timestamp": now}` as metadata.  An exception from `vector_db.add` is
swallowed by the same blanket `except`, so the returned state does not
depend on the store outcome (the event records that the write was
attempted). -/
def add_to_vector_db (env : DbEnv) (conversation : List (String × String)) :
    (List (String × String)) × List DbEvent :=
  match conversation.lookup "prompt", conversation.lookup "response" with
  | some p, some r =>
    match env.getEmbedding (p ++ " " ++ r) with
    | none => (conversation, [.ensureCollection])
    | some emb =>
      let conv2 := pySet conversation "id" env.uuid
      (conv2, [.ensureCollection, .add env.uuid emb conv2 env.uuid env.now])
  | _, _ => (conversation, [.ensureCollection])

/-- A conversation turn appended to the module-level
`conversation_history` (ol.py lines 140-141). -/
structure Turn : Type where
  role : String
  content : String
deriving DecidableEq

/-- Python `l[-n:]`: the last `n` elements (the whole list when it is
shorter). -/
def pyTakeLast {α : Type} (n : Nat) (l : List α) : List α :=
  l.drop (l.length - n)

/-- ol.py lines 143-144: `if len(conversation_history) > 10:
conversation_history = conversation_history[-10:]`. -/
def truncHistory (h : List Turn) : List Turn :=
  if h.length > 10 then pyTakeLast 10 h else h

/-- The effect of one `ollama_chat` call on `conversation_history`
(ol.py lines 124-150): on success the user and assistant turns are
appended and the history truncated; when the `try` fails the appends
on lines 140-141 are skipped and the history is unchanged (the
exchange is `(prompt, none)`). -/
def historyStep (h : List Turn) : String × Option String → List Turn
  | (p, some r) => truncHistory (h ++ [⟨"user", p⟩, ⟨"assistant", r⟩])
  | (_, none) => h

/-- The history after a sequence of exchanges, starting from the empty
module-level list (ol.py line 31). -/
def runHistory (exs : List (String × Option String)) : List Turn :=
  exs.foldl historyStep []

/-- The untruncated transcript of the same exchanges (what the history
would be with no window): used to state that truncation discards the
oldest turns first. -/
def fullHistory (exs : List (String × Option String)) : List Turn :=
  exs.foldl (fun h ex => match ex with
    | (p, some r) => h ++ [⟨"user", p⟩, ⟨"assistant", r⟩]
    | (_, none) => h) []

/-- The pre-sort candidate list that `retrieve_context` builds for a
prompt (empty on every path on which no candidate loop runs): the list
whose similarity keys drive the sort, used to state sortedness. -/
def builtOf (env : DbEnv) (prompt : String) : List Ctx :=
  match env.getEmbedding prompt with
  | none => []
  | some pe =>
    match env.queryDb pe env.nContexts with
    | .rows items =>
      match buildContexts env pe items with
      | .ok cs => cs
      | .exn _ => []
    | _ => []

/-- A concrete tool environment for the await scenario: `json.loads`
parses the one payload below, and `AITools.get_weather` behaves as
tools.py lines 127-136 (it unconditionally returns
`{"success": True, "weather": f"Weather information for {city}"}`). -/
def envAwaitBug : ToolEnv where
  jsonLoads := fun s =>
    if s = "\x7b\"name\": \"get_weather\", \"arguments\": \x7b\"city\": \"Paris\"\x7d\x7d".toList
    then some (.obj [("name", .str "get_weather"),
                     ("arguments", .obj [("city", .str "Paris")])])
    else none
  syncTool := fun n _ =>
    if n = "get_weather"
    then .ret (.obj [("success", .bool true),
                     ("weather", .str "Weather information for Paris")])
    else .raised (.typeError "unexpected")
  searchRun := fun _ => .raised (.typeError "unexpected")
  inherited := fun _ => none
  dumps := fun _ => ""
  pyStr := fun _ => ""
  renderTable := fun _ => ""

/-- A model response containing exactly one well-formed tool-call tag
invoking the registered tool `get_weather` with one string argument. -/
def inputAwaitBug : List Char :=
  ("A<tool_call>\x7b\"name\": \"get_weather\", \"arguments\": \x7b\"city\": \"Paris\"\x7d\x7d</tool_call>B").toList

/-- A tool environment in which the payload `nope` fails to parse and
the payload invoking `search` parses and would succeed: used to show
that a parse failure stops the scan before any later tag runs. -/
def envParseFail : ToolEnv where
  jsonLoads := fun s =>
    if s = "\x7b\"name\": \"search\", \"arguments\": \x7b\"query\": \"x\"\x7d\x7d".toList
    then some (.obj [("name", .str "search"),
                     ("arguments", .obj [("query", .str "x")])])
    else none
  syncTool := fun _ _ => .raised (.typeError "unexpected")
  searchRun := fun _ => .ret (.obj [("success", .bool true), ("results", .arr [])])
  inherited := fun _ => none
  dumps := fun _ => ""
  pyStr := fun _ => ""
  renderTable := fun _ => ""

/-- A model response whose first tag payload (`nope`) is not JSON and
whose second tag is well-formed for the `search` tool. -/
def inputParseFail : List Char :=
  ("a<tool_call>nope</tool_call>b<tool_call>\x7b\"name\": \"search\", \"arguments\": \x7b\"query\": \"x\"\x7d\x7d</tool_call>c").toList

/-- A tool environment recording the real behaviour of
`getattr(AITools, "mro")`: the attribute is found (it is the metaclass
method `type.mro` bound to the class), and calling it with no arguments
returns the method resolution order, the two-element list
`[<class tools.AITools>, <class object>]` (reprs abbreviated). -/
def envMro : ToolEnv where
  jsonLoads := fun _ => none
  syncTool := fun _ _ => .raised (.typeError "unexpected")
  searchRun := fun _ => .raised (.typeError "unexpected")
  inherited := fun n =>
    if n = "mro"
    then some (fun _ => .ret (.arr [.str "<class tools.AITools>", .str "<class object>"]))
    else none
  dumps := fun _ => ""
  pyStr := fun _ => ""
  renderTable := fun _ => ""

/-- A db environment whose store query raises (for example the
collection was dropped externally): `get_embedding` succeeds,
`vector_db.query` raises. -/
def dbEnvQueryRaises : DbEnv where
  nContexts := 3
  getEmbedding := fun _ => some [1]
  queryDb := fun _ _ => .raised (.valueError "Collection not found")
  jsonLoads := fun _ => none
  sqrt := fun _ => 0
  uuid := "u"
  now := 0

/-- A db environment whose embedding endpoint is down:
`get_embedding` returns the absence value for every prompt. -/
def dbEnvNoEmbedding : DbEnv where
  nContexts := 3
  getEmbedding := fun _ => none
  queryDb := fun _ _ => .noDocs
  jsonLoads := fun _ => none
  sqrt := fun _ => 0
  uuid := "u"
  now := 0

/-- A db environment with one stored record whose document parses and
whose recomputed similarity is the finite value 1 (embedding [1]
against stored embedding [1], with the square root of 1 being 1). -/
def dbEnvOneRecord : DbEnv where
  nContexts := 1
  getEmbedding := fun _ => some [1]
  queryDb := fun _ _ => .rows [⟨"d", [1], none⟩]
  jsonLoads := fun s =>
    if s = "d" then some (.obj [("prompt", .str "p"), ("response", .str "r")])
    else none
  sqrt := fun _ => 1
  uuid := "u"
  now := 0

/-- The single context that `retrieve_context` under `dbEnvOneRecord`
returns: document fields, id falling back to "Unknown" (no metadata and
no id field in the document), similarity 1. -/
def ctxOneRecord : Ctx :=
  ⟨[("prompt", .str "p"), ("response", .str "r")], .str "Unknown", .val 1⟩

/-- A db environment for the add path: embedding succeeds, uuid and
timestamp fixed. -/
def dbEnvAdd : DbEnv where
  nContexts := 3
  getEmbedding := fun _ => some [2]
  queryDb := fun _ _ => .noDocs
  jsonLoads := fun _ => none
  sqrt := fun _ => 0
  uuid := "fresh-uuid"
  now := 7

/-- Membership in a stable descending insertion: exactly the inserted
element plus the old members. -/
theorem mem_pyInsertDesc {α : Type} (ge : α → α → Bool) (x : α) (l : List α) (y : α) :
    y ∈ pyInsertDesc ge x l ↔ y = x ∨ y ∈ l := by
  induction l with
  | nil => simp [pyInsertDesc]
  | cons z t ih =>
    by_cases h : ge z x
    · simp [pyInsertDesc, h, ih]
      tauto
    · simp [pyInsertDesc, h]

/-- Inserting into a descending-sorted list keeps it sorted, provided
the comparison is transitive and the new element is comparable with
every current member. -/
theorem pairwise_pyInsertDesc {α : Type} (ge : α → α → Bool)
    (trans : ∀ a b c, ge a b = true → ge b c = true → ge a c = true)
    (x : α) (l : List α)
    (hp : l.Pairwise (fun a b => ge a b = true))
    (ht : ∀ y ∈ l, ge y x = true ∨ ge x y = true) :
    (pyInsertDesc ge x l).Pairwise (fun a b => ge a b = true) := by
  induction l with
  | nil => simp [pyInsertDesc]
  | cons z t ih =>
    rcases List.pairwise_cons.mp hp with ⟨hz, hpt⟩
    by_cases h : ge z x
    · rw [pyInsertDesc, if_pos h]
      refine List.pairwise_cons.mpr ⟨?_, ih hpt (fun y hy => ht y (List.mem_cons_of_mem _ hy))⟩
      intro y hy
      rcases (mem_pyInsertDesc ge x t y).mp hy with rfl | hyt
      · exact h
      · exact hz y hyt
    · rw [pyInsertDesc, if_neg h]
      have hxz : ge x z = true := by
        rcases ht z (List.mem_cons_self z t) with h1 | h1
        · exact absurd h1 h
        · exact h1
      refine List.pairwise_cons.mpr ⟨?_, hp⟩
      intro y hy
      rcases List.mem_cons.mp hy with rfl | hyt
      · exact hxz
      · exact trans x z y hxz (hz y hyt)

/-- Members of the folded insertions: the accumulator plus the inserted
elements. -/
theorem mem_foldl_pyInsertDesc {α : Type} (ge : α → α → Bool) :
    ∀ (l acc : List α) (y : α),
      y ∈ l.foldl (fun acc x => pyInsertDesc ge x acc) acc → y ∈ acc ∨ y ∈ l := by
  intro l
  induction l with
  | nil => intro acc y hy; exact Or.inl hy
  | cons x t ih =>
    intro acc y hy
    rcases ih (pyInsertDesc ge x acc) y hy with h1 | h1
    · rcases (mem_pyInsertDesc ge x acc y).mp h1 with rfl | h2
      · exact Or.inr (List.mem_cons_self y t)
      · exact Or.inl h2
    · exact Or.inr (List.mem_cons_of_mem x h1)

/-- The folded insertions keep the accumulator sorted when all the
involved elements satisfy a predicate on which the comparison is
total. -/
theorem pairwise_foldl_pyInsertDesc {α : Type} (ge : α → α → Bool) (P : α → Prop)
    (trans : ∀ a b c, ge a b = true → ge b c = true → ge a c = true)
    (htot : ∀ a b, P a → P b → ge a b = true ∨ ge b a = true) :
    ∀ (l acc : List α),
      acc.Pairwise (fun a b => ge a b = true) →
      (∀ x ∈ acc, P x) → (∀ x ∈ l, P x) →
      (l.foldl (fun acc x => pyInsertDesc ge x acc) acc).Pairwise
        (fun a b => ge a b = true) := by
  intro l
  induction l with
  | nil => intro acc hacc _ _; exact hacc
  | cons x t ih =>
    intro acc hacc haccP hlP
    have hx : P x := hlP x (List.mem_cons_self x t)
    have hins : (pyInsertDesc ge x acc).Pairwise (fun a b => ge a b = true) :=
      pairwise_pyInsertDesc ge trans x acc hacc
        (fun y hy => htot y x (haccP y hy) hx)
    have hinsP : ∀ y ∈ pyInsertDesc ge x acc, P y := by
      intro y hy
      rcases (mem_pyInsertDesc ge x acc y).mp hy with rfl | h2
      · exact hx
      · exact haccP y h2
    exact ih (pyInsertDesc ge x acc) hins hinsP
      (fun y hy => hlP y (List.mem_cons_of_mem x hy))

/-- The embedded Python sort produces a descending-sorted list whenever
the keys are pairwise comparable. -/
theorem pairwise_pySortDesc {α : Type} (ge : α → α → Bool) (P : α → Prop)
    (trans : ∀ a b c, ge a b = true → ge b c = true → ge a c = true)
    (htot : ∀ a b, P a → P b → ge a b = true ∨ ge b a = true)
    (l : List α) (hl : ∀ x ∈ l, P x) :
    (pySortDesc ge l).Pairwise (fun a b => ge a b = true) :=
  pairwise_foldl_pyInsertDesc ge P trans htot l [] (by simp) (by simp) hl

/-- The descending key comparison is transitive (a true comparison
never involves nan). -/
theorem ctxGe_trans : ∀ a b c : Ctx,
    ctxGe a b = true → ctxGe b c = true → ctxGe a c = true := by
  intro a b c hab hbc
  unfold ctxGe at hab hbc ⊢
  cases ha : a.similarity <;> cases hb : b.similarity <;> cases hc : c.similarity <;>
    simp [ha, hb, hc] at hab hbc ⊢ <;> try exact le_trans hbc hab

/-- Two non-nan keys are always comparable. -/
theorem ctxGe_total (a b : Ctx) (ha : a.similarity ≠ .nan) (hb : b.similarity ≠ .nan) :
    ctxGe a b = true ∨ ctxGe b a = true := by
  unfold ctxGe
  cases h1 : a.similarity <;> cases h2 : b.similarity
  all_goals simp_all
  exact le_total _ _

/-- Unfolding of `List.lookup` on a cons cell, with the boolean key
test replaced by a propositional one. -/
theorem lookup_cons (a k b : String) (es : List (String × String)) :
    List.lookup a ((k, b) :: es) = if a = k then some b else List.lookup a es := by
  by_cases h : a = k
  · subst h
    rw [List.lookup, if_pos rfl, beq_self_eq_true]
  · rw [List.lookup, if_neg h, beq_eq_false_iff_ne.mpr h]

/-- Assigning a key makes a lookup of that key return the assigned
value. -/
theorem lookup_pySet_self (l : List (String × String)) (k v : String) :
    (pySet l k v).lookup k = some v := by
  induction l with
  | nil => simp [pySet, lookup_cons]
  | cons p t ih =>
    rcases p with ⟨k0, v0⟩
    by_cases h : k0 = k
    · simp [pySet, h, lookup_cons]
    · simp [pySet, h, lookup_cons, Ne.symm h, ih]

/-- Assigning a key does not change lookups of other keys. -/
theorem lookup_pySet_ne (l : List (String × String)) (k v k' : String)
    (h : k' ≠ k) :
    (pySet l k v).lookup k' = l.lookup k' := by
  induction l with
  | nil => simp [pySet, lookup_cons, h]
  | cons p t ih =>
    rcases p with ⟨k0, v0⟩
    by_cases h0 : k0 = k
    · subst h0
      simp [pySet, lookup_cons, h]
    · simp [pySet, h0, lookup_cons, ih]

/-- Slicing `l[-n:]` of a list not longer than `n` is the whole list. -/
theorem pyTakeLast_of_le {α : Type} (n : Nat) (l : List α) (h : l.length ≤ n) :
    pyTakeLast n l = l := by
  unfold pyTakeLast
  have : l.length - n = 0 := by omega
  rw [this, List.drop_zero]

/-- Truncation in ol.py lines 143-144 is exactly `l[-10:]` (the guard
only skips the slice when it would be the identity). -/
theorem truncHistory_eq (h : List Turn) : truncHistory h = pyTakeLast 10 h := by
  unfold truncHistory
  by_cases hl : h.length > 10
  · rw [if_pos hl]
  · rw [if_neg hl, pyTakeLast_of_le 10 h (by omega)]

/-- Taking the last `n` after appending to an already-truncated list is
the same as truncating the full concatenation: the window only ever
depends on the most recent elements. -/
theorem pyTakeLast_append {α : Type} (n : Nat) (xs ys : List α) :
    pyTakeLast n (pyTakeLast n xs ++ ys) = pyTakeLast n (xs ++ ys) := by
  rcases le_or_lt xs.length n with hle | hlt
  · rw [pyTakeLast_of_le n xs hle]
  · unfold pyTakeLast
    rw [List.drop_append_eq_append_drop, List.drop_append_eq_append_drop,
        List.drop_drop]
    have h1 : (List.drop (xs.length - n) xs).length = n := by
      rw [List.length_drop]; omega
    rw [List.length_append, List.length_append, h1]
    congr 2
    · omega
    · omega

/-- The length of the untruncated transcript is even: every exchange
appends zero or two turns. -/
theorem fullHistory_even_aux :
    ∀ (exs : List (String × Option String)) (h : List Turn),
      (exs.foldl (fun h ex => match ex with
        | (p, some r) => h ++ [⟨"user", p⟩, ⟨"assistant", r⟩]
        | (_, none) => h) h).length % 2 = h.length % 2 := by
  intro exs
  induction exs with
  | nil => intro h; rfl
  | cons ex t ih =>
    intro h
    rcases ex with ⟨p, _ | r⟩
    · exact ih h
    · rw [List.foldl_cons]
      have := ih (h ++ [⟨"user", p⟩, ⟨"assistant", r⟩])
      simp only [List.length_append, List.length_cons, List.length_nil] at this ⊢
      omega

/-- The maintained history is always the `[-10:]` window of the full
transcript. -/
theorem runHistory_window_aux :
    ∀ (exs : List (String × Option String)) (h f : List Turn),
      h = pyTakeLast 10 f →
      exs.foldl historyStep h
        = pyTakeLast 10 (exs.foldl (fun h ex => match ex with
            | (p, some r) => h ++ [⟨"user", p⟩, ⟨"assistant", r⟩]
            | (_, none) => h) f) := by
  intro exs
  induction exs with
  | nil => intro h f hw; exact hw
  | cons ex t ih =>
    intro h f hw
    rcases ex with ⟨p, _ | r⟩
    · exact ih h f hw
    · rw [List.foldl_cons, List.foldl_cons]
      apply ih
      show truncHistory (h ++ [⟨"user", p⟩, ⟨"assistant", r⟩]) = _
      rw [truncHistory_eq, hw, pyTakeLast_append]

/-- C1: claimed behaviour — text with k well-formed tags naming
registered tools yields k invocations and k result blocks with no
markers left.  Actual behaviour at a concrete failing input: one
well-formed `get_weather` tag.  `execute_tool` runs the tool body (one
invocation event is recorded) and returns its dict; `await` on that
non-awaitable dict raises TypeError, the `except Exception` handler
breaks the loop, and `process_tool_calls` returns the input text
unchanged — the `<tool_call>` markers are still present and no
`<tool_response>` block was inserted.  Only the async `search` tool can
ever complete the claimed replacement. -/
theorem c1_await_typeerror_leaves_tag :
    process_tool_calls envAwaitBug 5 inputAwaitBug
        = some (.ok inputAwaitBug,
                [.invoked "get_weather" [("city", JVal.str "Paris")]])
      ∧ strIndex inputAwaitBug tcOpen 0 = some 1
      ∧ strIndex inputAwaitBug tcClose 1 = some 67 :=
  ⟨rfl, rfl, rfl⟩

/-- C2: claimed behaviour — an unterminated tag terminates the scan
with no exception and the text unmodified.  Actual behaviour: the end
marker search `content.index("</tool_call>", tool_call_start)` on
ol.py line 156 runs outside the `try`, so the ValueError it raises
escapes `process_tool_calls` (for any environment and any fuel); the
handler on lines 205-208 that was written for this message is dead
code. -/
theorem c2_unterminated_tag_raises (env : ToolEnv) (fuel : Nat) :
    process_tool_calls env (fuel + 1) "x<tool_call>y".toList
      = some (.exn (.valueError "substring not found"), []) :=
  rfl

/-- C4 as stated is false: on a text whose first tag payload (`nope`)
fails to parse and whose second tag is well-formed for `search`, the
claim predicts the markers of the first tag removed and the second tag
executed; the code instead prints a warning and breaks
(json.JSONDecodeError is a ValueError whose message does not contain
"substring not found"), returning the whole text unchanged — both
`<tool_call>` markers still present — with zero invocations. -/
theorem c4_parse_failure_counterexample :
    process_tool_calls envParseFail 9 inputParseFail
        = some (.ok inputParseFail, [])
      ∧ strIndex inputParseFail tcOpen 0 = some 1
      ∧ strIndex inputParseFail tcOpen 2 = some 29 :=
  ⟨rfl, rfl, rfl⟩

/-- C4 amended: a complete first tag whose payload fails to parse as
JSON makes `process_tool_calls` stop scanning: it returns the whole
remaining text unmodified (tag markers included) with no tool
invocation, and later tags are not processed. -/
theorem c4_parse_failure_stops (env : ToolEnv) (content : List Char)
    (s e fuel : Nat)
    (h1 : strIndex content tcOpen 0 = some s)
    (h2 : strIndex content tcClose s = some e)
    (h3 : env.jsonLoads (pyStrip ((content.drop (s + 11)).take (e - (s + 11)))) = none) :
    process_tool_calls env (fuel + 1) content = some (.ok content, []) := by
  simp [process_tool_calls, toolCallStep, h1, h2, h3]

/-- C4 witness: the amended theorem applied at the concrete input. -/
theorem c4_parse_failure_stops_witness :
    process_tool_calls envParseFail 1 inputParseFail
      = some (.ok inputParseFail, []) :=
  c4_parse_failure_stops envParseFail inputParseFail 1 16 0 rfl rfl rfl

/-- C5: claimed behaviour — a zero denominator yields similarity 0.
Actual behaviour: `cosine_similarity` (db_utils.py lines 83-84) has no
zero check; on two zero vectors the expression is `0.0/0.0`, which in
numpy is nan (with a RuntimeWarning, no exception), and nan is not the
float 0.  Stated for every square-root oracle that is exact at 0, as
IEEE sqrt is. -/
theorem c5_zero_vector_nan (sqrt : ℚ → ℚ) (h : sqrt 0 = 0) :
    cosine_similarity sqrt [0] [0] = some .nan
      ∧ NpFloat.nan ≠ NpFloat.val 0 := by
  constructor
  · simp [cosine_similarity, np_dot, npDiv, h]
  · intro hc
    cases hc

/-- C5 witness: the theorem applied to the oracle that is constantly
0 (which is exact at 0). -/
theorem c5_zero_vector_nan_witness :
    cosine_similarity (fun _ => 0) [0] [0] = some .nan :=
  (c5_zero_vector_nan (fun _ => 0) rfl).1

/-- C8 as stated is false: `mro` names no registered tool (the
registry scan returns `None`), yet `execute_tool` resolves it via
`getattr(AITools, "mro")` to the inherited metaclass method, calls it
(one invocation event), and returns its value — the method resolution
order list, not a synthesized `{success: False, error}` dict. -/
theorem c8_mro_counterexample :
    get_tool_by_name "mro" = none
      ∧ execute_tool envMro "mro" []
          = (.plain (.arr [.str "<class tools.AITools>", .str "<class object>"]),
             [.invoked "mro" []]) :=
  ⟨rfl, rfl⟩

/-- C8 amended: a name that is neither the async `search`, nor one of
the synchronous `AITools` static methods, nor an attribute the class
inherits from its machinery, makes `execute_tool` return the
synthesized failure dict without invoking any callable; since the
static-method names coincide with the registered tool names, every
unregistered name except inherited class attributes (such as `mro` or
`__init__`) is rejected this way. -/
theorem c8_unknown_name_not_invoked (env : ToolEnv) (name : String)
    (kwargs : List (String × JVal))
    (h1 : ¬ name = "search")
    (h2 : syncMethodNames.contains name = false)
    (h3 : env.inherited name = none) :
    execute_tool env name kwargs
      = (.plain (failureDict ("Tool " ++ name ++ " not found")), []) := by
  unfold execute_tool
  rw [if_neg h1, if_neg (by rw [h2]; exact Bool.false_ne_true), h3]

/-- C8 witness: the amended theorem applied at a concrete unknown
name. -/
theorem c8_unknown_name_not_invoked_witness :
    execute_tool envMro "frobnicate" []
      = (.plain (failureDict "Tool frobnicate not found"), []) :=
  c8_unknown_name_not_invoked envMro "frobnicate" [] (by decide) (by decide) rfl

/-- C3: claimed behaviour — any store error during add/query is a
no-op with no exception escaping.  `add_to_vector_db` does conform (its
blanket `except` only calls `debug_print` with an f-string that names
only imported bindings, and the embedding of the function is total).  But in
`retrieve_context` a store error reaches the handler on db_utils.py
lines 139-142, whose second `debug_print` argument evaluates
`traceback.format_exc()` with `traceback` never imported — the handler
raises NameError before `return []`, and that NameError escapes the
function instead of an empty list being returned. -/
theorem c3_query_error_escapes (env : DbEnv) (prompt : String)
    (pe : List ℚ) (exc : PyExc)
    (h1 : env.getEmbedding prompt = some pe)
    (h2 : env.queryDb pe env.nContexts = .raised exc) :
    (retrieve_context env prompt).1 = .exn tracebackNameError := by
  simp [retrieve_context, h1, h2]

/-- C3 witness: the theorem applied to a concrete environment whose
query raises. -/
theorem c3_query_error_escapes_witness :
    (retrieve_context dbEnvQueryRaises "hello").1 = .exn tracebackNameError :=
  c3_query_error_escapes dbEnvQueryRaises "hello" [1]
    (.valueError "Collection not found") rfl rfl

/-- C7: when embedding the prompt fails (`get_embedding` returns the
absence value), `retrieve_context` returns the empty list immediately
(db_utils.py line 95): no exception, and the only store interaction is
the idempotent `ensure_collection_exists` — in particular no
`vector_db.query` call is made. -/
theorem c7_embed_failure_empty (env : DbEnv) (prompt : String)
    (h : env.getEmbedding prompt = none) :
    retrieve_context env prompt = (.ok [], [.ensureCollection]) := by
  simp [retrieve_context, h]

/-- C7 witness: the theorem applied to a concrete environment whose
embedding endpoint is down. -/
theorem c7_embed_failure_empty_witness :
    retrieve_context dbEnvNoEmbedding "hello" = (.ok [], [.ensureCollection]) :=
  c7_embed_failure_empty dbEnvNoEmbedding "hello" rfl

/-- C10: `add_to_vector_db` mutates its argument.  When the embedding
of `prompt + " " + response` succeeds, the dict of the caller afterwards
carries `id = uuid` (db_utils.py line 70) while its `prompt` and
`response` entries are unchanged, and the one store write uses that
same uuid as key, stores the serialized mutated dict (so the document
contains the id), and puts the same uuid in the metadata.  When the
embedding fails, the function returns with the dict unmodified and no
store write (only the idempotent collection open). -/
theorem c10_add_mutates_conversation (env : DbEnv)
    (conv : List (String × String)) (p r : String)
    (hp : conv.lookup "prompt" = some p)
    (hr : conv.lookup "response" = some r) :
    (∀ emb, env.getEmbedding (p ++ " " ++ r) = some emb →
      add_to_vector_db env conv
          = (pySet conv "id" env.uuid,
             [.ensureCollection,
              .add env.uuid emb (pySet conv "id" env.uuid) env.uuid env.now])
        ∧ (pySet conv "id" env.uuid).lookup "id" = some env.uuid
        ∧ (pySet conv "id" env.uuid).lookup "prompt" = some p
        ∧ (pySet conv "id" env.uuid).lookup "response" = some r)
    ∧ (env.getEmbedding (p ++ " " ++ r) = none →
        add_to_vector_db env conv = (conv, [.ensureCollection])) := by
  constructor
  · intro emb hemb
    refine ⟨?_, lookup_pySet_self conv "id" env.uuid, ?_, ?_⟩
    · simp [add_to_vector_db, hp, hr, hemb]
    · rw [lookup_pySet_ne conv "id" env.uuid "prompt" (by decide), hp]
    · rw [lookup_pySet_ne conv "id" env.uuid "response" (by decide), hr]
  · intro hemb
    simp [add_to_vector_db, hp, hr, hemb]

/-- C10 witness: both conjuncts applied at concrete inputs (an
environment whose embedding succeeds, and one whose embedding is
absent). -/
theorem c10_add_mutates_conversation_witness :
    (add_to_vector_db dbEnvAdd [("prompt", "p"), ("response", "r")]
        = ([("prompt", "p"), ("response", "r"), ("id", "fresh-uuid")],
           [.ensureCollection,
            .add "fresh-uuid" [2]
              [("prompt", "p"), ("response", "r"), ("id", "fresh-uuid")]
              "fresh-uuid" 7])
      ∧ [("prompt", "p"), ("response", "r"), ("id", "fresh-uuid")].lookup "id"
          = some "fresh-uuid")
    ∧ add_to_vector_db dbEnvNoEmbedding [("prompt", "p"), ("response", "r")]
        = ([("prompt", "p"), ("response", "r")], [.ensureCollection]) := by
  refine ⟨⟨?_, ?_⟩, ?_⟩
  · have h := ((c10_add_mutates_conversation dbEnvAdd
      [("prompt", "p"), ("response", "r")] "p" "r" rfl rfl).1 [2] rfl).1
    simpa [pySet] using h
  · have h := ((c10_add_mutates_conversation dbEnvAdd
      [("prompt", "p"), ("response", "r")] "p" "r" rfl rfl).1 [2] rfl).2.1
    simpa [pySet] using h
  · exact (c10_add_mutates_conversation dbEnvNoEmbedding
      [("prompt", "p"), ("response", "r")] "p" "r" rfl rfl).2 rfl

/-- C9: after any sequence of exchanges (including failed ones, which
append nothing), the conversation history has an even number of turns,
holds at most 10 turns, and equals the `[-10:]` window of the full
transcript — truncation discards the oldest turns first (ol.py lines
140-144). -/
theorem c9_history_invariant (exs : List (String × Option String)) :
    (runHistory exs).length % 2 = 0
      ∧ (runHistory exs).length ≤ 10
      ∧ runHistory exs = pyTakeLast 10 (fullHistory exs) := by
  have hw : runHistory exs = pyTakeLast 10 (fullHistory exs) :=
    runHistory_window_aux exs [] [] rfl
  have he : (fullHistory exs).length % 2 = 0 := fullHistory_even_aux exs []
  refine ⟨?_, ?_, hw⟩
  · rw [hw]; unfold pyTakeLast; rw [List.length_drop]; omega
  · rw [hw]; unfold pyTakeLast; rw [List.length_drop]; omega

/-- C6: whenever `retrieve_context` returns normally, the returned list
has at most `N_CONTEXTS` elements, and if every candidate similarity is
comparable (not nan — zero-norm embeddings produce nan, see the
cosine-similarity theorem), the list is sorted by the recomputed
similarity in descending order (db_utils.py lines 128-130). -/
theorem c6_retrieve_bounded_sorted (env : DbEnv) (prompt : String) (l : List Ctx)
    (h : (retrieve_context env prompt).1 = .ok l) :
    l.length ≤ env.nContexts
      ∧ ((∀ c ∈ builtOf env prompt, c.similarity ≠ .nan) →
          l.Pairwise (fun a b => ctxGe a b = true)) := by
  cases hge : env.getEmbedding prompt with
  | none =>
    simp only [retrieve_context, hge] at h
    simp at h
    subst h
    simp
  | some pe =>
    simp only [retrieve_context, hge] at h
    cases hq : env.queryDb pe env.nContexts with
    | raised e =>
      simp only [hq] at h
      simp at h
    | noDocs =>
      simp only [hq] at h
      simp at h
      subst h
      simp
    | rows items =>
      simp only [hq] at h
      cases hb : buildContexts env pe items with
      | exn e =>
        simp only [hb] at h
        simp at h
      | ok cs =>
        simp only [hb] at h
        by_cases hall :
            ((pySortDesc ctxGe cs).take env.nContexts).all debugPrintable = true
        · rw [if_pos hall] at h
          simp at h
          subst h
          constructor
          · rw [List.length_take]
            exact inf_le_left
          · intro hnan
            simp only [builtOf, hge, hq, hb] at hnan
            have hp := pairwise_pySortDesc ctxGe (fun c => c.similarity ≠ .nan)
              ctxGe_trans (fun a b ha hb2 => ctxGe_total a b ha hb2) cs hnan
            exact List.Pairwise.sublist (List.take_sublist _ _) hp
        · rw [if_neg hall] at h
          simp at h

/-- C6 witness: the theorem applied to an environment with one stored
record whose recomputed similarity is the finite value 1. -/
theorem c6_retrieve_bounded_sorted_witness :
    ((retrieve_context dbEnvOneRecord "q").1 = PyResult.ok [ctxOneRecord])
      ∧ [ctxOneRecord].length ≤ dbEnvOneRecord.nContexts
      ∧ [ctxOneRecord].Pairwise (fun a b => ctxGe a b = true) := by
  have hret : (retrieve_context dbEnvOneRecord "q").1 = PyResult.ok [ctxOneRecord] := by
    norm_num [retrieve_context, dbEnvOneRecord, buildContexts, cosine_similarity,
      np_dot, npDiv, ctxIdOf, pySortDesc, pyInsertDesc, debugPrintable,
      ctxOneRecord, List.lookup,
      show ("response" == "prompt") = false from rfl,
      show ("id" == "prompt") = false from rfl,
      show ("id" == "response") = false from rfl]
  refine ⟨hret,
    (c6_retrieve_bounded_sorted dbEnvOneRecord "q" [ctxOneRecord] hret).1,
    (c6_retrieve_bounded_sorted dbEnvOneRecord "q" [ctxOneRecord] hret).2 ?_⟩
  intro c hc
  norm_num [builtOf, dbEnvOneRecord, buildContexts, cosine_similarity,
    np_dot, npDiv, ctxIdOf, List.lookup,
    show ("id" == "prompt") = false from rfl,
    show ("id" == "response") = false from rfl] at hc
  rw [hc]
  intro hfalse
  cases hfalse
